import Mathlib

/-
Verification of the ecommerce-microservices order-processing backend.

The definitions below are a shallow embedding of the JavaScript sources:
  - src/services/products/index.js  (product store, stock-update endpoint)
  - src/services/cart/index.js      (cart totals, cart validation endpoint)
  - src/services/order/index.js     (order saga, status update, statistics,
                                     route registration)
Money amounts (JS numbers) are modelled as rationals, timestamps as naturals,
quantities and stock as integers.  HTTP/network effects are modelled by
explicit event parameters describing what each outbound call observed.
-/

namespace ECom

/-- Order status enum, from ORDER_STATUS in src/services/order/index.js. -/
inductive OrderStatus
  | pending
  | processing
  | confirmed
  | cancelled
  | shipped
  | delivered
deriving DecidableEq

/-- String value of each order status, as in the ORDER_STATUS object. -/
def statusString : OrderStatus → String
  | .pending => "pending"
  | .processing => "processing"
  | .confirmed => "confirmed"
  | .cancelled => "cancelled"
  | .shipped => "shipped"
  | .delivered => "delivered"

/-- Object.values(ORDER_STATUS), in declaration order. -/
def allOrderStatuses : List OrderStatus :=
  [.pending, .processing, .confirmed, .cancelled, .shipped, .delivered]

/-- Payment status enum, from PAYMENT_STATUS in src/services/order/index.js. -/
inductive PaymentStatus
  | pending
  | processing
  | completed
  | failed
  | refunded
deriving DecidableEq

/-- One timeline entry of an order. -/
structure TimelineEntry where
  status : OrderStatus
  message : String
  timestamp : Nat
deriving DecidableEq

/-- Result of the mock payment processor (processPayment). -/
structure PaymentResult where
  success : Bool
  amount : Option ℚ
  error : Option String
deriving DecidableEq

/-- An order line item as built in POST /api/orders/place (newOrder.items). -/
structure OrderItem where
  productId : Nat
  productName : String
  price : ℚ
  quantity : Int
  category : String
  subtotal : ℚ
deriving DecidableEq

/-- An order record of the in-memory orders array. -/
structure Order where
  id : Nat
  userId : String
  items : List OrderItem
  totalAmount : ℚ
  totalItems : Int
  status : OrderStatus
  paymentStatus : PaymentStatus
  shippingAddress : String
  paymentMethod : String
  cancellationReason : Option String
  paymentDetails : Option PaymentResult
  createdAt : Nat
  updatedAt : Nat
  timeline : List TimelineEntry
deriving DecidableEq

/-- A product record of the products-service in-memory database
(fields relevant to stock handling). -/
structure Product where
  id : Nat
  name : String
  price : ℚ
  stock : Int
  available : Bool
  updatedAt : Nat
deriving DecidableEq

/-- Response of PUT /api/products/:id/stock (status code plus JSON body). -/
structure StockUpdateResponse where
  statusCode : Nat
  success : Bool
  message : String
  newStock : Option Int
  newAvailable : Option Bool
  availableStock : Option Int
  requestedQuantity : Option Int
deriving DecidableEq

/-- Recomputation done after a stock operation:
product.available = product.stock > 0; product.updatedAt = new Date(). -/
def refreshProduct (p : Product) (now : Nat) : Product :=
  { p with available := decide (0 < p.stock), updatedAt := now }

/-- Success body of the stock endpoint. -/
def stockOkResponse (operation : String) (p : Product) : StockUpdateResponse :=
  ⟨200, true, "Stock " ++ operation ++ "d successfully",
    some p.stock, some p.available, none, none⟩

/-- Walk the products array looking for the product id, mirroring
products.findIndex followed by in-place mutation of that entry. -/
def stockOpGo (pid : Nat) (q : Int) (operation : String) (now : Nat) :
    List Product → StockUpdateResponse × List Product
  | [] => (⟨404, false, "Product not found", none, none, none, none⟩, [])
  | p :: rest =>
    if p.id = pid then
      if operation = "decrease" then
        if p.stock < q then
          (⟨400, false, "Insufficient stock", none, none, some p.stock, some q⟩,
            p :: rest)
        else
          let p1 := refreshProduct { p with stock := p.stock - q } now
          (stockOkResponse operation p1, p1 :: rest)
      else if operation = "increase" then
        let p1 := refreshProduct { p with stock := p.stock + q } now
        (stockOkResponse operation p1, p1 :: rest)
      else
        let p1 := refreshProduct p now
        (stockOkResponse operation p1, p1 :: rest)
    else
      let r := stockOpGo pid q operation now rest
      (r.1, p :: r.2)

/-- PUT /api/products/:id/stock from src/services/products/index.js
(lines 478-536): quantity guard, lookup, operation branch, refresh, respond. -/
def updateStockEndpoint (db : List Product) (pid : Nat) (q : Int)
    (operation : String) (now : Nat) : StockUpdateResponse × List Product :=
  if q ≤ 0 then
    (⟨400, false, "Valid quantity is required", none, none, none, none⟩, db)
  else
    stockOpGo pid q operation now db

/-- A cart line item as stored by the cart service (fields used by the saga). -/
structure CartItem where
  productId : Nat
  productName : String
  price : ℚ
  quantity : Int
  category : String
deriving DecidableEq

/-- A user's cart record in the cart service. -/
structure Cart where
  userId : String
  items : List CartItem
  totalItems : Int
  totalAmount : ℚ
  updatedAt : Nat
deriving DecidableEq

/-- Sum of quantities, as cart.items.reduce((t, item) => t + item.quantity, 0). -/
def cartItemsTotalQty (items : List CartItem) : Int :=
  items.foldl (fun total item => total + item.quantity) 0

/-- Sum of price times quantity, as
cart.items.reduce((t, item) => t + item.price * item.quantity, 0). -/
def cartItemsTotalAmount (items : List CartItem) : ℚ :=
  items.foldl (fun total item => total + item.price * (item.quantity : ℚ)) 0

/-- Helper calculateCartTotals from src/services/cart/index.js (lines 97-101). -/
def calculateCartTotals (cart : Cart) (now : Nat) : Cart :=
  { cart with
    totalItems := cartItemsTotalQty cart.items,
    totalAmount := cartItemsTotalAmount cart.items,
    updatedAt := now }

/-- One availability result entry returned by the products service
POST /api/products/check-availability. -/
structure CheckedItem where
  productId : Nat
  productName : String
  available : Bool
  message : String
  requestedQuantity : Int
  availableQuantity : Int
  price : ℚ
deriving DecidableEq

/-- Validation block of a successful cart-validation response. -/
structure ValidationData where
  allAvailable : Bool
  items : List CheckedItem
deriving DecidableEq

/-- Outcome of the cart service's checkProductAvailability helper: either the
products service answered 200 with availability data, or the helper reports an
invalid result (products breaker fallback, non-2xx response, or thrown error). -/
inductive AvailCheckOutcome
  | ok (allAvailable : Bool) (items : List CheckedItem)
  | failed (fallback : Bool) (message : String)

/-- Response of POST /api/cart/validate/:userId. -/
structure CartValidateResp where
  statusCode : Nat
  success : Bool
  message : String
  cart : Option Cart
  validation : Option ValidationData
deriving DecidableEq

/-- Price refresh done by the validate endpoint: each cart item whose
productId appears among the checked items takes the checked (latest) price. -/
def updateItemPrices (checked : List CheckedItem) (items : List CartItem) :
    List CartItem :=
  items.map fun ci =>
    match checked.find? (fun ch => ch.productId == ci.productId) with
    | some ch => { ci with price := ch.price }
    | none => ci

/-- POST /api/cart/validate/:userId from src/services/cart/index.js
(lines 450-518): empty-cart guard, availability check, price refresh,
totals recomputation, response assembly. -/
def validateCartEndpoint (storedCart : Cart) (avail : AvailCheckOutcome)
    (now : Nat) : CartValidateResp :=
  if storedCart.items.length = 0 then
    ⟨400, false, "Cart is empty", none, none⟩
  else
    match avail with
    | .failed fb msg => ⟨if fb then 503 else 400, false, msg, none, none⟩
    | .ok allAvailable checkedItems =>
      let cart1 :=
        { storedCart with items := updateItemPrices checkedItems storedCart.items }
      let cart2 := calculateCartTotals cart1 now
      ⟨200, true,
        (if allAvailable then "Cart is valid and ready for checkout"
         else "Some items in cart are not available"),
        some cart2, some ⟨allAvailable, checkedItems⟩⟩

/-
Order saga orchestrator (src/services/order/index.js).

callExternalService throws on every non-2xx response; each breaker has a
registered fallback, so breaker.fire resolves with the fallback object
whenever the wrapped call fails (non-2xx body, transport error, timeout) or
the breaker is open.  The events below describe what each outbound call ran
into; fireStockCall / fireCartValidate compute the value the saga observes.
-/

/-- JSON value the saga observes from a breaker-wrapped call. -/
structure ServiceResult where
  success : Bool
  message : String
  fallback : Bool
deriving DecidableEq

/-- Fallback object registered on the products breaker (order service,
lines 105-113). -/
def productsFallbackResult : ServiceResult :=
  ⟨false, "products-service is temporarily unavailable. Please try again later.",
    true⟩

/-- What a single stock-update call (decrease or increase) ran into. -/
inductive StockCallEvent
  | ok
  | businessFail
  | shortCircuit
  | transportFail
  | throwsErr
deriving DecidableEq

/-- Value produced by productsServiceBreaker.fire for a stock update:
a 2xx response yields its body; a non-2xx response makes callExternalService
throw, and — like a transport failure or an open breaker — resolves to the
registered fallback object; none models a rejected fire (caught by the saga). -/
def fireStockCall : StockCallEvent → Option ServiceResult
  | .ok => some ⟨true, "Stock decreased successfully", false⟩
  | .businessFail => some productsFallbackResult
  | .shortCircuit => some productsFallbackResult
  | .transportFail => some productsFallbackResult
  | .throwsErr => none

/-- What the cart-validation call ran into. -/
inductive CartCallEvent
  | ok (cart : Cart) (validation : ValidationData)
  | httpError
  | shortCircuit
  | throwsErr

/-- Cart-validation value observed by the saga (cartServiceBreaker.fire):
the 200 body on success, the cart breaker's fallback object on any failure,
none for a rejected fire (propagates to the route's outer catch). -/
structure CartValidationSeen where
  success : Bool
  message : String
  fallback : Bool
  data : Option (Cart × ValidationData)
deriving DecidableEq

/-- Fallback object registered on the cart breaker of the order service. -/
def cartFallbackSeen : CartValidationSeen :=
  ⟨false, "cart-service is temporarily unavailable. Please try again later.",
    true, none⟩

/-- Compute what validateCartWithService resolves to for each event. -/
def fireCartValidate : CartCallEvent → Option CartValidationSeen
  | .ok cart validation =>
    some ⟨true,
      (if validation.allAvailable then "Cart is valid and ready for checkout"
       else "Some items in cart are not available"),
      false, some (cart, validation)⟩
  | .httpError => some cartFallbackSeen
  | .shortCircuit => some cartFallbackSeen
  | .throwsErr => none

/-- Mock payment processor processPayment (order service, lines 232-255),
with the random outcome supplied as a parameter. -/
def processPayment (isSuccessful : Bool) (totalAmount : ℚ) : PaymentResult :=
  if isSuccessful then
    ⟨true, some totalAmount, none⟩
  else
    ⟨false, none,
      some "Payment failed due to insufficient funds or invalid payment method"⟩

/-- Entry of the saga-local stockUpdates array. -/
structure StockUpdate where
  productId : Nat
  quantity : Int
  success : Bool
deriving DecidableEq

/-- Environment of one POST /api/orders/place invocation: request data plus
what every outbound call would run into. -/
structure SagaEnv where
  authPresent : Bool
  fieldsPresent : Bool
  userId : String
  shippingAddress : String
  paymentMethod : String
  cartEvent : CartCallEvent
  stockEvent : Nat → StockCallEvent
  restoreEvent : Nat → StockCallEvent
  paymentSucceeds : Bool
  now : Nat

/-- Observable result of one POST /api/orders/place invocation: the HTTP
response, the final orders array, and the outbound calls that were made. -/
structure SagaResult where
  statusCode : Nat
  success : Bool
  message : String
  respOrder : Option Order
  respReason : Option String
  respPaymentError : Option String
  createdOrder : Option Order
  orders : List Order
  counter : Nat
  decCalls : List (Nat × Int)
  succDec : List StockUpdate
  incCalls : List (Nat × Int)
  paymentAttempted : Bool
  notifTypes : List String
  cartClearAttempted : Bool

/-- Result of an invocation that ends before an order is created. -/
def noOrderResult (code : Nat) (msg : String) (orders : List Order)
    (counter : Nat) : SagaResult :=
  ⟨code, false, msg, none, none, none, none, orders, counter, [], [], [],
    false, [], false⟩

/-- Outcome of the sequential reservation loop (step 3 of the saga). -/
structure ReserveOutcome where
  updates : List StockUpdate
  calls : List (Nat × Int)
  failed : Bool
  failedProduct : Option CartItem
deriving DecidableEq

/-- Sequential reservation loop over cart.items (order service, lines
417-437): each item triggers one decrease call; a success is pushed onto
stockUpdates; a success:false result stops the loop recording the failed
item; a thrown call stops the loop with no failed item recorded. -/
def reserveItems (ev : Nat → StockCallEvent) :
    List CartItem → Nat → ReserveOutcome
  | [], _ => ⟨[], [], false, none⟩
  | item :: rest, i =>
    match fireStockCall (ev i) with
    | none => ⟨[], [(item.productId, item.quantity)], true, none⟩
    | some r =>
      if r.success then
        let ro := reserveItems ev rest (i + 1)
        ⟨⟨item.productId, item.quantity, true⟩ :: ro.updates,
          (item.productId, item.quantity) :: ro.calls, ro.failed,
          ro.failedProduct⟩
      else
        ⟨[], [(item.productId, item.quantity)], true, some item⟩

/-- Rollback loop of the inventory-failure path (lines 444-453): walk
stockUpdates in order and attempt one increase call per entry whose decrease
succeeded; a failing restore is caught and logged, the loop continues. -/
def rollbackSucceeded : List StockUpdate → List (Nat × Int)
  | [] => []
  | u :: rest =>
    if u.success then (u.productId, u.quantity) :: rollbackSucceeded rest
    else rollbackSucceeded rest

/-- Rollback loop of the payment-failure path (lines 503-510): one increase
call per stockUpdates entry, in order; failures are caught and logged. -/
def rollbackAll : List StockUpdate → List (Nat × Int)
  | [] => []
  | u :: rest => (u.productId, u.quantity) :: rollbackAll rest

/-- Build one order line item from a validated cart item (lines 384-391). -/
def mkOrderItem (item : CartItem) : OrderItem :=
  ⟨item.productId, item.productName, item.price, item.quantity, item.category,
    item.price * (item.quantity : ℚ)⟩

/-- Steps 2-7 of the saga, entered once cart validation succeeded with an
available, non-empty cart: create the PENDING order, reserve inventory,
compensate and cancel on reservation failure, otherwise process payment,
compensate and cancel on decline, otherwise confirm, clear the cart and
notify (order service, lines 379-576). -/
def placeOrderValidated (env : SagaEnv) (cart : Cart) (orders : List Order)
    (counter : Nat) : SagaResult :=
  let orderId := counter + 1
  let baseOrder : Order :=
    { id := orderId, userId := env.userId,
      items := cart.items.map mkOrderItem,
      totalAmount := cart.totalAmount, totalItems := cart.totalItems,
      status := .pending, paymentStatus := .pending,
      shippingAddress := env.shippingAddress,
      paymentMethod := env.paymentMethod,
      cancellationReason := none, paymentDetails := none,
      createdAt := env.now, updatedAt := env.now,
      timeline := [⟨.pending, "Order created and pending validation", env.now⟩] }
  let ro := reserveItems env.stockEvent cart.items 0
  if ro.failed then
    let reason :=
      match ro.failedProduct with
      | some item => "Insufficient stock for product: " ++ item.productName
      | none => "Inventory reservation failed"
    let finalOrder :=
      { baseOrder with
        status := .cancelled, paymentStatus := .failed,
        cancellationReason := some reason, updatedAt := env.now,
        timeline := baseOrder.timeline ++ [⟨.cancelled, reason, env.now⟩] }
    { statusCode := 400, success := false,
      message := "Order cancelled due to inventory issues",
      respOrder := some finalOrder, respReason := some reason,
      respPaymentError := none,
      createdOrder := some finalOrder, orders := orders ++ [finalOrder],
      counter := orderId, decCalls := ro.calls, succDec := ro.updates,
      incCalls := rollbackSucceeded ro.updates, paymentAttempted := false,
      notifTypes := ["order_cancelled"], cartClearAttempted := false }
  else
    let processingOrder :=
      { baseOrder with
        status := .processing, paymentStatus := .processing,
        updatedAt := env.now,
        timeline := baseOrder.timeline ++
          ([⟨.processing, "Inventory reserved, processing payment", env.now⟩] :
            List TimelineEntry) }
    let payment := processPayment env.paymentSucceeds cart.totalAmount
    if payment.success then
      let finalOrder :=
        { processingOrder with
          status := .confirmed, paymentStatus := .completed,
          paymentDetails := some payment, updatedAt := env.now,
          timeline := processingOrder.timeline ++
            ([⟨.confirmed, "Payment successful, order confirmed", env.now⟩] :
              List TimelineEntry) }
      { statusCode := 201, success := true,
        message := "Order placed successfully",
        respOrder := some finalOrder, respReason := none,
        respPaymentError := none,
        createdOrder := some finalOrder, orders := orders ++ [finalOrder],
        counter := orderId, decCalls := ro.calls, succDec := ro.updates,
        incCalls := [], paymentAttempted := true,
        notifTypes := ["order_confirmed"], cartClearAttempted := true }
    else
      let finalOrder :=
        { processingOrder with
          status := .cancelled, paymentStatus := .failed,
          cancellationReason := some "Payment failed",
          paymentDetails := some payment, updatedAt := env.now,
          timeline := processingOrder.timeline ++
            ([⟨.cancelled,
              "Payment failed: " ++ payment.error.getD "undefined", env.now⟩] :
              List TimelineEntry) }
      { statusCode := 400, success := false,
        message := "Order cancelled due to payment failure",
        respOrder := some finalOrder, respReason := none,
        respPaymentError := payment.error,
        createdOrder := some finalOrder, orders := orders ++ [finalOrder],
        counter := orderId, decCalls := ro.calls, succDec := ro.updates,
        incCalls := rollbackAll ro.updates, paymentAttempted := true,
        notifTypes := ["order_cancelled"], cartClearAttempted := false }

/-- POST /api/orders/place (order service, lines 329-586): auth guard,
required-field guard, cart validation with its three early failure returns,
then the validated saga body. -/
def placeOrder (env : SagaEnv) (orders : List Order) (counter : Nat) :
    SagaResult :=
  if env.authPresent then
    if env.fieldsPresent then
      match fireCartValidate env.cartEvent with
      | none => noOrderResult 500 "Error placing order" orders counter
      | some cv =>
        if cv.success then
          match cv.data with
          | some (cart, validation) =>
            if validation.allAvailable then
              if cart.items.length = 0 then
                noOrderResult 400 "Cart is empty" orders counter
              else
                placeOrderValidated env cart orders counter
            else
              noOrderResult 400 "Some items in cart are not available" orders
                counter
          | none => noOrderResult 500 "Error placing order" orders counter
        else
          noOrderResult 400
            (if cv.message = "" then "Cart validation failed" else cv.message)
            orders counter
    else
      noOrderResult 400
        "User ID, shipping address, and payment method are required" orders
        counter
  else
    noOrderResult 401 "Authorization token required" orders counter

/-- Parse a status string against Object.values(ORDER_STATUS). -/
def parseOrderStatus (s : String) : Option OrderStatus :=
  allOrderStatuses.find? (fun st => statusString st == s)

/-- Response of PUT /api/orders/:orderId/status. -/
structure UpdateStatusResp where
  statusCode : Nat
  success : Bool
  message : String
  order : Option Order
deriving DecidableEq

/-- Replace the first order with the given id (orders.findIndex followed by
in-place mutation), returning the updated order and list, or none. -/
def updateFirstOrder (oid : Nat) (f : Order → Order) :
    List Order → Option (Order × List Order)
  | [] => none
  | o :: rest =>
    if o.id = oid then some (f o, f o :: rest)
    else
      match updateFirstOrder oid f rest with
      | some (o1, rest1) => some (o1, o :: rest1)
      | none => none

/-- Mutation applied to the found order by the status-update endpoint:
set status, refresh updatedAt, append one timeline entry. -/
def applyStatusUpdate (st : OrderStatus) (message : Option String) (now : Nat)
    (o : Order) : Order :=
  { o with
    status := st, updatedAt := now,
    timeline := o.timeline ++
      ([⟨st, message.getD ("Order status updated to " ++ statusString st),
        now⟩] : List TimelineEntry) }

/-- PUT /api/orders/:orderId/status from src/services/order/index.js
(lines 589-637): validate the status string, find the order, overwrite its
status unconditionally, refresh updatedAt, append one timeline entry. -/
def updateOrderStatusEndpoint (orders : List Order) (oid : Nat)
    (statusRaw : Option String) (message : Option String) (now : Nat) :
    UpdateStatusResp × List Order :=
  match statusRaw.bind parseOrderStatus with
  | none => (⟨400, false, "Valid status is required", none⟩, orders)
  | some st =>
    match updateFirstOrder oid (applyStatusUpdate st message now) orders with
    | none => (⟨404, false, "Order not found", none⟩, orders)
    | some (o1, orders1) =>
      (⟨200, true, "Order status updated successfully", some o1⟩, orders1)

/-
GET side of the order service: route registration order and the handlers of
GET /api/orders/:userId and GET /api/orders/stats.
-/

/-- A segment of an Express route pattern. -/
inductive Seg
  | lit (s : String)
  | param (name : String)
deriving DecidableEq

/-- Express-style path matching: literals match exactly, a param consumes one
non-empty segment, lengths must agree. -/
def segMatch : List Seg → List String → Bool
  | [], [] => true
  | .lit s :: ps, x :: xs => s == x && segMatch ps xs
  | .param _ :: ps, x :: xs => !(x == "") && segMatch ps xs
  | _, _ => false

/-- The GET routes of the order service, in registration order
(src/services/order/index.js lines 258, 302, 640, 680, 709, 739). -/
inductive OrderRoute
  | getUserOrders
  | getOrder
  | getStats
  | health
  | cbHealth
  | root
deriving DecidableEq

/-- Registered GET route table of the order service, in source order. -/
def orderGetRoutes : List (OrderRoute × List Seg) :=
  [ (.getUserOrders, [.lit "api", .lit "orders", .param "userId"]),
    (.getOrder, [.lit "api", .lit "orders", .lit "order", .param "orderId"]),
    (.getStats, [.lit "api", .lit "orders", .lit "stats"]),
    (.health, [.lit "api", .lit "health"]),
    (.cbHealth, [.lit "api", .lit "health", .lit "circuit-breakers"]),
    (.root, []) ]

/-- Express dispatch: the first registered route whose pattern matches wins. -/
def dispatchGet (path : List String) : Option OrderRoute :=
  (orderGetRoutes.find? (fun r => segMatch r.2 path)).map (fun r => r.1)

/-- Response body of a GET request to the order service. -/
inductive OrderGetResponse
  | userOrdersResp (orders : List Order) (currentPage totalPages
      totalOrders : Nat) (hasNextPage hasPrevPage : Bool)
  | orderResp (found : Option Order)
  | statsResp (totalOrders : Nat) (ordersByStatus : List (String × Nat))
      (totalRevenue averageOrderValue : ℚ)
  | healthResp
  | cbHealthResp
  | rootResp
  | noRoute
deriving DecidableEq

/-- Insert keeping newest-first order by createdAt. -/
def insertByCreatedDesc (o : Order) : List Order → List Order
  | [] => [o]
  | x :: xs =>
    if x.createdAt ≤ o.createdAt then o :: x :: xs
    else x :: insertByCreatedDesc o xs

/-- Sort orders newest first, as userOrders.sort((a, b) => b.createdAt - a.createdAt). -/
def sortByCreatedDesc (l : List Order) : List Order :=
  l.foldr insertByCreatedDesc []

/-- GET /api/orders/:userId (lines 258-299): filter by user and optional
status, sort newest first, paginate. -/
def getUserOrdersHandler (orders : List Order) (userId : String)
    (status : Option String) (page limit : Nat) : OrderGetResponse :=
  let userOrders := orders.filter (fun o => o.userId == userId)
  let userOrders : List Order :=
    match status with
    | some s => userOrders.filter (fun o => statusString o.status == s)
    | none => userOrders
  let sorted := sortByCreatedDesc userOrders
  let startIndex := (page - 1) * limit
  let endIndex := page * limit
  let pageOrders := (sorted.drop startIndex).take (endIndex - startIndex)
  .userOrdersResp pageOrders page ((userOrders.length + limit - 1) / limit)
    userOrders.length (decide (endIndex < userOrders.length))
    (decide (1 < page))

/-- GET /api/orders/stats handler logic (lines 640-677): optional user
filter, counts per status over Object.values(ORDER_STATUS), total revenue
over CONFIRMED orders, average order value (0 when none). -/
def getOrderStatsHandler (orders : List Order) (userId : Option String) :
    OrderGetResponse :=
  let filteredOrders : List Order :=
    match userId with
    | some uid => orders.filter (fun o => o.userId == uid)
    | none => orders
  let ordersByStatus := allOrderStatuses.map fun st =>
    (statusString st,
      (filteredOrders.filter (fun o => o.status == st)).length)
  let confirmedOrders :=
    filteredOrders.filter (fun o => o.status == OrderStatus.confirmed)
  let totalRevenue := confirmedOrders.foldl (fun s o => s + o.totalAmount) 0
  let averageOrderValue :=
    if 0 < confirmedOrders.length then
      totalRevenue / (confirmedOrders.length : ℚ)
    else 0
  .statsResp filteredOrders.length ordersByStatus totalRevenue
    averageOrderValue

/-- GET /api/orders/order/:orderId (lines 302-326). -/
def getOrderHandler (orders : List Order) (oidRaw : String) :
    OrderGetResponse :=
  match oidRaw.toNat? with
  | some oid => .orderResp (orders.find? (fun o => o.id == oid))
  | none => .orderResp none

/-- A GET request to the order service with no query parameters: Express
dispatch over the registered routes, then the matched handler with its
default query values (page 1, limit 10, no status filter). -/
def orderServiceGet (orders : List Order) (path : List String) :
    OrderGetResponse :=
  match dispatchGet path with
  | some .getUserOrders => getUserOrdersHandler orders (path.getD 2 "") none 1 10
  | some .getOrder => getOrderHandler orders (path.getD 3 "")
  | some .getStats => getOrderStatsHandler orders none
  | some .health => .healthResp
  | some .cbHealth => .cbHealthResp
  | some .root => .rootResp
  | none => .noRoute

/-
Circuit breaker.  The breaker implementation itself is the opossum npm
dependency and is not part of this repository's sources, so it is modelled
from the specification.
-/

/-- Breaker configuration, from the circuitBreakerOptions object of the order
service (buckets omitted: the model keeps exact outcome times instead). -/
structure BreakerConfig where
  timeout : Nat
  errorThresholdPercentage : Nat
  resetTimeout : Nat
  rollingCountTimeout : Nat
  volumeThreshold : Nat
deriving DecidableEq

/-- Breaker state; an open breaker remembers when it opened. -/
inductive BreakerState
  | closed
  | isOpen (openedAt : Nat)
  | halfOpen
deriving DecidableEq

/-- One recorded call outcome in the rolling window. -/
structure BreakerOutcome where
  time : Nat
  success : Bool
deriving DecidableEq

/-- A breaker instance: current state plus rolling window of outcomes. -/
structure Breaker where
  state : BreakerState
  window : List BreakerOutcome
deriving DecidableEq

/-- Behaviour the wrapped operation would have if invoked now. -/
structure OpBehavior where
  succeeds : Bool
  duration : Nat
deriving DecidableEq

/-- What one execute call returned. -/
inductive FireOutcome
  | fallbackValue
  | opSuccess
  | opFailure
deriving DecidableEq

/-- Observable record of one execute call: whether the wrapped operation was
invoked, the state the breaker was in at the moment of decision (after any
cooldown-elapsed transition), and the returned outcome. -/
structure FireRecord where
  invoked : Bool
  preAttemptState : BreakerState
  outcome : FireOutcome
deriving DecidableEq

/-- Modelled from the spec: the rolling window keeps recent outcomes bounded
by a fixed time span (missing source: the opossum breaker implementation). -/
def pruneWindow (cfg : BreakerConfig) (now : Nat) (w : List BreakerOutcome) :
    List BreakerOutcome :=
  w.filter (fun o => decide (now < o.time + cfg.rollingCountTimeout))

/-- Number of failures recorded in a window. -/
def windowFailures (w : List BreakerOutcome) : Nat :=
  (w.filter (fun o => !o.success)).length

/-- Modelled from the spec: a CLOSED breaker opens when the window holds at
least volumeThreshold calls and the failure rate reaches
errorThresholdPercentage. -/
def shouldOpen (cfg : BreakerConfig) (w : List BreakerOutcome) : Bool :=
  decide (cfg.volumeThreshold ≤ w.length) &&
    decide (cfg.errorThresholdPercentage * w.length ≤ 100 * windowFailures w)

/-- Modelled from the spec: a call succeeds only if the operation succeeds
within the configured timeout; exceeding it counts as a failure. -/
def callSucceeds (cfg : BreakerConfig) (op : OpBehavior) : Bool :=
  op.succeeds && decide (op.duration ≤ cfg.timeout)

/-- Modelled from the spec: when the cooldown of an OPEN breaker has elapsed,
the breaker transitions to HALF_OPEN before any operation attempt. -/
def effectiveState (cfg : BreakerConfig) (now : Nat) :
    BreakerState → BreakerState
  | .isOpen t0 => if t0 + cfg.resetTimeout ≤ now then .halfOpen else .isOpen t0
  | s => s

/-- Modelled from the spec: execute(operation) per the breaker state machine
of §4.1 (missing source: the opossum breaker implementation).  OPEN within
the cooldown short-circuits to the fallback without invoking the operation;
HALF_OPEN lets one trial through, closing on success (window reset) and
reopening on failure (cooldown restarted); CLOSED attempts the call, records
the outcome into the rolling window and opens when the thresholds are met. -/
def fireBreaker (cfg : BreakerConfig) (b : Breaker) (now : Nat)
    (op : OpBehavior) : FireRecord × Breaker :=
  match effectiveState cfg now b.state with
  | .isOpen t0 =>
    (⟨false, .isOpen t0, .fallbackValue⟩, ⟨.isOpen t0, b.window⟩)
  | .halfOpen =>
    if callSucceeds cfg op then
      (⟨true, .halfOpen, .opSuccess⟩, ⟨.closed, []⟩)
    else
      (⟨true, .halfOpen, .opFailure⟩, ⟨.isOpen now, b.window⟩)
  | .closed =>
    let w := pruneWindow cfg now b.window ++ [⟨now, callSucceeds cfg op⟩]
    (⟨true, .closed,
      if callSucceeds cfg op then .opSuccess else .opFailure⟩,
      ⟨if shouldOpen cfg w then .isOpen now else .closed, w⟩)

/-- The circuitBreakerOptions of the order service (lines 47-54). -/
def orderBreakerConfig : BreakerConfig :=
  ⟨5000, 50, 30000, 10000, 5⟩

/-
Order-service trace model: the two mutating operations of the service,
with a placed order's cart produced by the cart service's validate endpoint.
-/

/-- Transport outcome of the saga's cart-validation call around the cart
service's HTTP response. -/
inductive CartTransport
  | delivered
  | shortCircuit
  | transportFail
  | throwsErr
deriving DecidableEq

/-- Turn the cart service's HTTP response plus the transport outcome into
the event the saga's cart breaker call runs into: a delivered 200 carries the
body; a delivered non-2xx makes callExternalService throw (fallback); a
breaker short-circuit or transport failure also yields the fallback. -/
def cartEventOfValidate (resp : CartValidateResp) :
    CartTransport → CartCallEvent
  | .delivered =>
    if resp.statusCode = 200 then
      match resp.cart, resp.validation with
      | some c, some v => .ok c v
      | _, _ => .httpError
    else .httpError
  | .shortCircuit => .shortCircuit
  | .transportFail => .httpError
  | .throwsErr => .throwsErr

/-- A mutating operation of the order service: one place-order invocation
(with the stored cart validated through the cart service) or one direct
status update. -/
inductive OrderServiceOp
  | place (authPresent fieldsPresent : Bool)
      (userId shippingAddress paymentMethod : String)
      (storedCart : Cart) (avail : AvailCheckOutcome)
      (transport : CartTransport)
      (stockEvent restoreEvent : Nat → StockCallEvent)
      (paymentSucceeds : Bool) (now : Nat)
  | updStatus (orderId : Nat) (statusRaw : Option String)
      (message : Option String) (now : Nat)

/-- Mutable state of the order service. -/
structure OrderServiceState where
  orders : List Order
  counter : Nat

/-- Initial state: empty orders array, orderIdCounter = 1000. -/
def initOrderServiceState : OrderServiceState := ⟨[], 1000⟩

/-- Apply one operation to the order-service state. -/
def stepOrderService (st : OrderServiceState) :
    OrderServiceOp → OrderServiceState
  | .place auth fields uid addr pm storedCart avail transport stockEv
      restoreEv pay now =>
    let resp := validateCartEndpoint storedCart avail now
    let env : SagaEnv :=
      ⟨auth, fields, uid, addr, pm, cartEventOfValidate resp transport,
        stockEv, restoreEv, pay, now⟩
    let r := placeOrder env st.orders st.counter
    ⟨r.orders, r.counter⟩
  | .updStatus oid sRaw msg now =>
    let r := updateOrderStatusEndpoint st.orders oid sRaw msg now
    ⟨r.2, st.counter⟩

/-- Run a sequence of operations from the initial state. -/
def runOrderService (ops : List OrderServiceOp) : OrderServiceState :=
  ops.foldl stepOrderService initOrderServiceState

/-- Sum of quantities over order items, same fold as the cart totals. -/
def orderItemsTotalQty (items : List OrderItem) : Int :=
  items.foldl (fun total item => total + item.quantity) 0

/-- Sum of price times quantity over order items. -/
def orderItemsTotalAmount (items : List OrderItem) : ℚ :=
  items.foldl (fun total item => total + item.price * (item.quantity : ℚ)) 0

/-- The totals invariant of an order record: totalAmount and totalItems are
the sums over its current items. -/
def orderTotalsOk (o : Order) : Prop :=
  o.totalAmount = orderItemsTotalAmount o.items ∧
    o.totalItems = orderItemsTotalQty o.items

/-- Per-product quantity total of a list of stock calls. -/
def qtyFor (pid : Nat) (calls : List (Nat × Int)) : Int :=
  (calls.filter (fun c => c.1 == pid)).foldl (fun t c => t + c.2) 0

/-
Sample data used to instantiate the theorems on concrete inputs.
-/

/-- First two products of the products-service mock database. -/
def sampleProductsDb : List Product :=
  [⟨1, "iPhone 15 Pro", 999.99, 50, true, 0⟩,
    ⟨2, "Samsung Galaxy S24", 899.99, 35, true, 0⟩]

/-- A one-item cart (Scenario A shape). -/
def sampleCart : Cart :=
  ⟨"user1", [⟨1, "iPhone 15 Pro", 999.99, 2, "Electronics"⟩], 2, 1999.98, 0⟩

/-- A two-item cart. -/
def sampleCart2 : Cart :=
  ⟨"user1",
    [⟨1, "iPhone 15 Pro", 999.99, 2, "Electronics"⟩,
      ⟨2, "Samsung Galaxy S24", 899.99, 1, "Electronics"⟩],
    3, 2899.97, 0⟩

/-- Availability data matching sampleCart, everything available. -/
def sampleValidation : ValidationData :=
  ⟨true, [⟨1, "iPhone 15 Pro", true, "Product available", 2, 50, 999.99⟩]⟩

/-- Availability data matching sampleCart2, everything available. -/
def sampleValidation2 : ValidationData :=
  ⟨true, [⟨1, "iPhone 15 Pro", true, "Product available", 2, 50, 999.99⟩,
    ⟨2, "Samsung Galaxy S24", true, "Product available", 1, 35, 899.99⟩]⟩

/-- Saga environment template: authorized request with all fields present. -/
def baseEnv (cartEvent : CartCallEvent) (stockEvent : Nat → StockCallEvent)
    (paymentSucceeds : Bool) : SagaEnv :=
  ⟨true, true, "user1", "1 Main St", "card", cartEvent, stockEvent,
    fun _ => .ok, paymentSucceeds, 5⟩

/-- A fallback Order value used only to name created orders in witnesses. -/
def defaultOrder : Order :=
  ⟨0, "", [], 0, 0, .pending, .pending, "", "", none, none, 0, 0, []⟩

end ECom

namespace ECom

/-
Claim C10: unrecognized stock operation.
-/

lemma stockOpGo_unknown_op (pid : Nat) (q : Int) (op : String) (now : Nat)
    (hd : op ≠ "decrease") (hi : op ≠ "increase") :
    ∀ (db : List Product) (p : Product),
      db.find? (fun x => x.id == pid) = some p →
      (stockOpGo pid q op now db).1 = stockOkResponse op (refreshProduct p now) ∧
      (stockOpGo pid q op now db).2.map Product.stock = db.map Product.stock ∧
      (stockOpGo pid q op now db).2.map Product.id = db.map Product.id ∧
      (stockOpGo pid q op now db).2.find? (fun x => x.id == pid) =
        some (refreshProduct p now) := by
  intro db
  induction db with
  | nil => intro p h; simp at h
  | cons a tl ih =>
    intro p h
    by_cases hc : a.id = pid
    · rw [List.find?_cons_of_pos _ (by simpa using hc)] at h
      injection h with h
      subst h
      simp only [stockOpGo, if_pos hc, if_neg hd, if_neg hi]
      refine ⟨trivial, ?_, ?_, ?_⟩
      · simp [refreshProduct]
      · simp [refreshProduct]
      · exact List.find?_cons_of_pos _ (by simp [refreshProduct, hc])
    · rw [List.find?_cons_of_neg _ (by simpa using hc)] at h
      obtain ⟨h1, h2, h3, h4⟩ := ih p h
      simp only [stockOpGo, if_neg hc]
      refine ⟨h1, ?_, ?_, ?_⟩
      · simpa using h2
      · simpa using h3
      · rw [List.find?_cons_of_neg _ (by simpa using hc)]
        exact h4

/-- C10: for every existing product and positive quantity, the stock-update
endpoint called with an operation other than decrease or increase answers
200/success reporting the current stock as newStock, leaves every product's
stock (and id) unchanged, and recomputes only available and updatedAt on the
addressed product; no error is produced. -/
theorem C10_unknown_op_noop (db : List Product) (pid : Nat) (q : Int)
    (op : String) (now : Nat) (p : Product)
    (hq : 0 < q) (hd : op ≠ "decrease") (hi : op ≠ "increase")
    (hfind : db.find? (fun x => x.id == pid) = some p) :
    (updateStockEndpoint db pid q op now).1.statusCode = 200 ∧
    (updateStockEndpoint db pid q op now).1.success = true ∧
    (updateStockEndpoint db pid q op now).1.newStock = some p.stock ∧
    (updateStockEndpoint db pid q op now).1.newAvailable =
      some (decide (0 < p.stock)) ∧
    (updateStockEndpoint db pid q op now).2.map Product.stock =
      db.map Product.stock ∧
    (updateStockEndpoint db pid q op now).2.map Product.id =
      db.map Product.id ∧
    (updateStockEndpoint db pid q op now).2.find? (fun x => x.id == pid) =
      some (refreshProduct p now) := by
  have hq' : ¬ q ≤ 0 := not_le.mpr hq
  obtain ⟨h1, h2, h3, h4⟩ := stockOpGo_unknown_op pid q op now hd hi db p hfind
  unfold updateStockEndpoint
  rw [if_neg hq']
  refine ⟨?_, ?_, ?_, ?_, h2, h3, h4⟩
  · rw [h1]; rfl
  · rw [h1]; rfl
  · rw [h1]; rfl
  · rw [h1]; rfl

/-
Claim C1: every created order is terminal when placeOrder returns.
-/

lemma placeOrderValidated_terminal (env : SagaEnv) (cart : Cart)
    (orders : List Order) (counter : Nat) (o : Order)
    (h : (placeOrderValidated env cart orders counter).createdOrder = some o) :
    (o.status = .confirmed ∨ o.status = .cancelled) ∧
      (o.status = .cancelled →
        o.cancellationReason ≠ none ∧
          ∃ e ∈ o.timeline, e.status = .cancelled) := by
  by_cases hro : (reserveItems env.stockEvent cart.items 0).failed = true
  · simp only [placeOrderValidated, hro, if_true] at h
    injection h with h
    subst h
    refine ⟨Or.inr rfl, fun _ => ⟨by simp, ?_⟩⟩
    exact ⟨_, List.mem_append_right _ (List.mem_singleton_self _), rfl⟩
  · by_cases hp : env.paymentSucceeds = true
    · simp only [placeOrderValidated, hro, if_false, Bool.false_eq_true,
        processPayment, hp, if_true] at h
      injection h with h
      subst h
      exact ⟨Or.inl rfl, fun hc => by simp at hc⟩
    · simp only [placeOrderValidated, hro, Bool.false_eq_true,
        processPayment, hp, if_true, if_false] at h
      injection h with h
      subst h
      refine ⟨Or.inr rfl, fun _ => ⟨by simp, ?_⟩⟩
      exact ⟨_, List.mem_append_right _ (List.mem_singleton_self _), rfl⟩

/-- C1: whenever placeOrder creates an order (cart validation succeeded), the
order's status at return is terminal — CONFIRMED or CANCELLED — and a
cancelled order carries a cancellationReason and a cancelled timeline entry. -/
theorem C1_created_order_terminal (env : SagaEnv) (orders : List Order)
    (counter : Nat) (o : Order)
    (h : (placeOrder env orders counter).createdOrder = some o) :
    (o.status = .confirmed ∨ o.status = .cancelled) ∧
      (o.status = .cancelled →
        o.cancellationReason ≠ none ∧
          ∃ e ∈ o.timeline, e.status = .cancelled) := by
  unfold placeOrder at h
  repeat' split at h
  all_goals
    first
      | exact placeOrderValidated_terminal _ _ _ _ _ h
      | simp [noOrderResult] at h

/-- Witness for C1: a run that confirms an order (every external call
succeeds, payment approved). -/
theorem C1_created_order_terminal_witness :
    ((((placeOrder (baseEnv (.ok sampleCart sampleValidation) (fun _ => .ok)
          true) [] 1000).createdOrder).getD defaultOrder).status =
        OrderStatus.confirmed ∨
      (((placeOrder (baseEnv (.ok sampleCart sampleValidation) (fun _ => .ok)
          true) [] 1000).createdOrder).getD defaultOrder).status =
        OrderStatus.cancelled) ∧
      ((((placeOrder (baseEnv (.ok sampleCart sampleValidation) (fun _ => .ok)
          true) [] 1000).createdOrder).getD defaultOrder).status =
          OrderStatus.cancelled →
        (((placeOrder (baseEnv (.ok sampleCart sampleValidation)
            (fun _ => .ok) true) [] 1000).createdOrder).getD
              defaultOrder).cancellationReason ≠ none ∧
          ∃ e ∈ (((placeOrder (baseEnv (.ok sampleCart sampleValidation)
            (fun _ => .ok) true) [] 1000).createdOrder).getD
              defaultOrder).timeline, e.status = OrderStatus.cancelled) :=
  C1_created_order_terminal
    (baseEnv (.ok sampleCart sampleValidation) (fun _ => .ok) true) [] 1000 _
    rfl

/-
Dispatch shape of placeOrder: either an early failure return that creates
nothing, or the validated saga body on the cart delivered by validation.
-/

lemma placeOrder_result (env : SagaEnv) (orders : List Order)
    (counter : Nat) :
    ((placeOrder env orders counter).createdOrder = none ∧
      (placeOrder env orders counter).orders = orders ∧
      (placeOrder env orders counter).success = false ∧
      (placeOrder env orders counter).decCalls = [] ∧
      (placeOrder env orders counter).paymentAttempted = false) ∨
    ∃ cart validation, env.cartEvent = .ok cart validation ∧
      validation.allAvailable = true ∧ cart.items ≠ [] ∧
      placeOrder env orders counter =
        placeOrderValidated env cart orders counter := by
  cases hA : env.authPresent with
  | false => exact Or.inl (by simp [placeOrder, hA, noOrderResult])
  | true =>
    cases hF : env.fieldsPresent with
    | false => exact Or.inl (by simp [placeOrder, hA, hF, noOrderResult])
    | true =>
      cases hev : env.cartEvent with
      | ok cart validation =>
        by_cases hall : validation.allAvailable = true
        · by_cases hne : cart.items.length = 0
          · exact Or.inl (by
              simp [placeOrder, hA, hF, hev, fireCartValidate, hall, hne,
                noOrderResult])
          · refine Or.inr ⟨cart, validation, rfl, hall, ?_, by
              simp [placeOrder, hA, hF, hev, fireCartValidate, hall, hne]⟩
            intro hnil
            exact hne (by rw [hnil]; rfl)
        · exact Or.inl (by
            simp [placeOrder, hA, hF, hev, fireCartValidate, hall,
              noOrderResult])
      | httpError =>
        exact Or.inl (by
          simp [placeOrder, hA, hF, hev, fireCartValidate, cartFallbackSeen,
            noOrderResult])
      | shortCircuit =>
        exact Or.inl (by
          simp [placeOrder, hA, hF, hev, fireCartValidate, cartFallbackSeen,
            noOrderResult])
      | throwsErr =>
        exact Or.inl (by
          simp [placeOrder, hA, hF, hev, fireCartValidate, noOrderResult])

/-
Claim C2: compensation walks the reservation list exactly.
-/

lemma reserveItems_updates_success (ev : Nat → StockCallEvent) :
    ∀ (items : List CartItem) (i : Nat),
      ∀ u ∈ (reserveItems ev items i).updates, u.success = true := by
  intro items
  induction items with
  | nil => intro i u hu; simp [reserveItems] at hu
  | cons a tl ih =>
    intro i u hu
    simp only [reserveItems] at hu
    cases hev : fireStockCall (ev i) with
    | none => rw [hev] at hu; simp at hu
    | some r =>
      rw [hev] at hu
      by_cases hs : r.success = true
      · simp only [hs, if_true, List.mem_cons] at hu
        rcases hu with hu | hu
        · rw [hu]
        · exact ih (i + 1) u hu
      · simp only [Bool.not_eq_true] at hs
        simp [hs] at hu

lemma rollbackSucceeded_eq_of_success :
    ∀ l : List StockUpdate, (∀ u ∈ l, u.success = true) →
      rollbackSucceeded l = l.map (fun u => (u.productId, u.quantity)) := by
  intro l
  induction l with
  | nil => intro _; rfl
  | cons a tl ih =>
    intro h
    have ha : a.success = true := h a (List.mem_cons_self a tl)
    simp only [rollbackSucceeded, ha, if_true, List.map_cons]
    rw [ih fun u hu => h u (List.mem_cons_of_mem a hu)]

lemma rollbackAll_eq :
    ∀ l : List StockUpdate,
      rollbackAll l = l.map (fun u => (u.productId, u.quantity)) := by
  intro l
  induction l with
  | nil => rfl
  | cons a tl ih => simp only [rollbackAll, List.map_cons]; rw [ih]

lemma placeOrderValidated_cancel_rollback (env : SagaEnv) (cart : Cart)
    (orders : List Order) (counter : Nat) (o : Order)
    (h : (placeOrderValidated env cart orders counter).createdOrder = some o)
    (hc : o.status = .cancelled) :
    (placeOrderValidated env cart orders counter).incCalls =
      (placeOrderValidated env cart orders counter).succDec.map
        (fun u => (u.productId, u.quantity)) := by
  by_cases hro : (reserveItems env.stockEvent cart.items 0).failed = true
  · simp only [placeOrderValidated, hro, if_true]
    exact rollbackSucceeded_eq_of_success _
      (reserveItems_updates_success env.stockEvent cart.items 0)
  · by_cases hp : env.paymentSucceeds = true
    · simp only [placeOrderValidated, hro, Bool.false_eq_true,
        processPayment, hp, if_true, if_false] at h
      injection h with h
      subst h
      simp at hc
    · simp only [placeOrderValidated, hro, Bool.false_eq_true,
        processPayment, hp, if_true, if_false]
      exact rollbackAll_eq _

/-- C2: whenever the saga cancels a created order, the increase-stock
compensation calls are exactly the successfully-decreased reservations, one
per item, in reservation order — hence the per-product compensated quantity
equals the per-product reserved quantity. -/
theorem C2_compensation_exact (env : SagaEnv) (orders : List Order)
    (counter : Nat) (o : Order)
    (h : (placeOrder env orders counter).createdOrder = some o)
    (hc : o.status = .cancelled) :
    (placeOrder env orders counter).incCalls =
      (placeOrder env orders counter).succDec.map
        (fun u => (u.productId, u.quantity)) ∧
    ∀ pid, qtyFor pid (placeOrder env orders counter).incCalls =
      qtyFor pid ((placeOrder env orders counter).succDec.map
        (fun u => (u.productId, u.quantity))) := by
  have hmain : (placeOrder env orders counter).incCalls =
      (placeOrder env orders counter).succDec.map
        (fun u => (u.productId, u.quantity)) := by
    rcases placeOrder_result env orders counter with ⟨hno, -, -, -, -⟩ |
      ⟨cart, validation, _, _, _, heq⟩
    · rw [hno] at h; cases h
    · rw [heq] at h ⊢
      exact placeOrderValidated_cancel_rollback _ _ _ _ _ h hc
  exact ⟨hmain, fun pid => by rw [hmain]⟩

/-- Stock events: first decrease succeeds, second fails. -/
def stockEvFailSecond : Nat → StockCallEvent :=
  fun i => if i = 0 then .ok else .businessFail

/-- Witness for C2: a two-item cart whose second reservation fails; the
single successful reservation is compensated. -/
theorem C2_compensation_exact_witness :
    (placeOrder (baseEnv (.ok sampleCart2 sampleValidation2)
        stockEvFailSecond true) [] 1000).incCalls =
      (placeOrder (baseEnv (.ok sampleCart2 sampleValidation2)
        stockEvFailSecond true) [] 1000).succDec.map
          (fun u => (u.productId, u.quantity)) ∧
    ∀ pid, qtyFor pid (placeOrder (baseEnv (.ok sampleCart2 sampleValidation2)
        stockEvFailSecond true) [] 1000).incCalls =
      qtyFor pid ((placeOrder (baseEnv (.ok sampleCart2 sampleValidation2)
        stockEvFailSecond true) [] 1000).succDec.map
          (fun u => (u.productId, u.quantity))) :=
  C2_compensation_exact
    (baseEnv (.ok sampleCart2 sampleValidation2) stockEvFailSecond true) []
    1000 _ rfl rfl

/-
Claim C3: a failed cart validation creates nothing and calls nothing.
-/

/-- C3: when the cart-validation step does not succeed — the call is answered
by the fallback (non-2xx response or short-circuit), it throws, the cart
reports unavailable items, or the cart is empty — placeOrder returns a
failure, the orders array is unchanged, no order is created, and no
reservation or payment call is made. -/
theorem C3_validation_failure_no_effects (env : SagaEnv) (orders : List Order)
    (counter : Nat)
    (hA : env.authPresent = true) (hF : env.fieldsPresent = true)
    (hfail : (∀ c v, env.cartEvent ≠ .ok c v) ∨
      ∃ c v, env.cartEvent = .ok c v ∧
        (v.allAvailable = false ∨ c.items = [])) :
    (placeOrder env orders counter).success = false ∧
    (placeOrder env orders counter).createdOrder = none ∧
    (placeOrder env orders counter).orders = orders ∧
    (placeOrder env orders counter).decCalls = [] ∧
    (placeOrder env orders counter).paymentAttempted = false := by
  rcases placeOrder_result env orders counter with
    ⟨h1, h2, h3, h4, h5⟩ | ⟨cart, validation, hev, hall, hne, -⟩
  · exact ⟨h3, h1, h2, h4, h5⟩
  · exfalso
    rcases hfail with hnone | ⟨c, v, hev2, hbad⟩
    · exact hnone cart validation hev
    · rw [hev] at hev2
      injection hev2 with hc hv
      rcases hbad with hbad | hbad
      · rw [← hv, hall] at hbad; cases hbad
      · exact hne (hc ▸ hbad)

/-- Witness for C3: the cart-validation call is answered by the cart
breaker's fallback object (a non-2xx response from the cart service). -/
theorem C3_validation_failure_no_effects_witness :
    (placeOrder (baseEnv .httpError (fun _ => .ok) true) [] 1000).success =
      false ∧
    (placeOrder (baseEnv .httpError (fun _ => .ok) true) []
      1000).createdOrder = none ∧
    (placeOrder (baseEnv .httpError (fun _ => .ok) true) [] 1000).orders =
      [] ∧
    (placeOrder (baseEnv .httpError (fun _ => .ok) true) [] 1000).decCalls =
      [] ∧
    (placeOrder (baseEnv .httpError (fun _ => .ok) true) []
      1000).paymentAttempted = false :=
  C3_validation_failure_no_effects (baseEnv .httpError (fun _ => .ok) true)
    [] 1000 rfl rfl
    (Or.inl fun _ _ h => CartCallEvent.noConfusion h)

/-
Claim C4: the reservation path does not distinguish a breaker fallback from
a business failure — both produce the same cancellation reason.
-/

/-- Environment whose single reservation call is answered by the products
breaker's fallback (breaker open, dependency never contacted). -/
def envReserveShortCircuit : SagaEnv :=
  baseEnv (.ok sampleCart sampleValidation) (fun _ => .shortCircuit) true

/-- Environment whose single reservation call is answered by a genuine
insufficient-stock 400 response from the products service. -/
def envReserveInsufficient : SagaEnv :=
  baseEnv (.ok sampleCart sampleValidation) (fun _ => .businessFail) true

/-- Counterexample to C4: a reservation answered by the products breaker's
fallback and one answered by a genuine insufficient-stock response produce
the SAME cancellation reason — the orchestrator does not distinguish them. -/
theorem C4_counterexample_same_reason :
    ((placeOrder envReserveShortCircuit [] 1000).createdOrder.map
        (fun o => o.cancellationReason) =
      (placeOrder envReserveInsufficient [] 1000).createdOrder.map
        (fun o => o.cancellationReason)) ∧
    (placeOrder envReserveShortCircuit [] 1000).createdOrder.map
        (fun o => o.cancellationReason) =
      some (some "Insufficient stock for product: iPhone 15 Pro") :=
  ⟨rfl, rfl⟩

lemma reserveItems_failedProduct_failed (ev : Nat → StockCallEvent) :
    ∀ (items : List CartItem) (i : Nat) (it : CartItem),
      (reserveItems ev items i).failedProduct = some it →
      (reserveItems ev items i).failed = true := by
  intro items
  induction items with
  | nil => intro i it h; simp [reserveItems] at h
  | cons a tl ih =>
    intro i it
    simp only [reserveItems]
    cases fireStockCall (ev i) with
    | none => intro _; rfl
    | some r =>
      by_cases hs : r.success = true
      · simp only [hs, if_true]
        intro h
        exact ih (i + 1) it h
      · simp only [Bool.not_eq_true] at hs
        simp [hs]

/-- C4 (amended): whenever the reservation loop stops at a specific item —
no matter whether that item's decrease call was answered by the breaker's
fallback, a transport failure, or a genuine insufficient-stock response —
the order is cancelled with the one insufficient-stock reason naming that
item; the reservation path produces no distinct messaging for a
short-circuit. -/
theorem C4_amended_uniform_reason (env : SagaEnv) (orders : List Order)
    (counter : Nat) (cart : Cart) (validation : ValidationData)
    (it : CartItem)
    (hA : env.authPresent = true) (hF : env.fieldsPresent = true)
    (hev : env.cartEvent = .ok cart validation)
    (hall : validation.allAvailable = true)
    (hne : cart.items.length ≠ 0)
    (hfp : (reserveItems env.stockEvent cart.items 0).failedProduct =
      some it) :
    (placeOrder env orders counter).createdOrder.map
        (fun o => o.cancellationReason) =
      some (some ("Insufficient stock for product: " ++ it.productName)) := by
  have hfailed := reserveItems_failedProduct_failed env.stockEvent cart.items
    0 it hfp
  simp only [placeOrder, hA, hF, hev, fireCartValidate, if_true, hall,
    hne, if_false]
  simp only [hne, if_false, placeOrderValidated, hfailed, if_true, hfp]
  rfl

/-- Witness for C4 (amended) on the short-circuit environment. -/
theorem C4_amended_uniform_reason_witness :
    (placeOrder envReserveShortCircuit [] 1000).createdOrder.map
        (fun o => o.cancellationReason) =
      some (some ("Insufficient stock for product: " ++
        (⟨1, "iPhone 15 Pro", 999.99, 2, "Electronics"⟩ :
          CartItem).productName)) :=
  C4_amended_uniform_reason envReserveShortCircuit [] 1000 sampleCart
    sampleValidation ⟨1, "iPhone 15 Pro", 999.99, 2, "Electronics"⟩
    rfl rfl rfl rfl (by decide) rfl

/-
Claim C5: payment declined after full reservation.
-/

/-- Environment in which every reservation succeeds and payment is declined. -/
def envPaymentDeclined : SagaEnv :=
  baseEnv (.ok sampleCart sampleValidation) (fun _ => .ok) false

/-- Counterexample to C5: when payment is declined the order's
cancellationReason is the literal "Payment failed", not "payment declined". -/
theorem C5_counterexample_reason_literal :
    (placeOrder envPaymentDeclined [] 1000).createdOrder.map
        (fun o => o.cancellationReason) = some (some "Payment failed") ∧
    (placeOrder envPaymentDeclined [] 1000).createdOrder.map
        (fun o => o.cancellationReason) ≠ some (some "payment declined") :=
  ⟨rfl, by intro h; rw [show (placeOrder envPaymentDeclined []
      1000).createdOrder.map (fun o => o.cancellationReason) =
      some (some "Payment failed") from rfl] at h; simp at h⟩

lemma reserveItems_all_ok (ev : Nat → StockCallEvent)
    (hok : ∀ j, ev j = .ok) :
    ∀ (items : List CartItem) (i : Nat),
      reserveItems ev items i =
        ⟨items.map (fun it => ⟨it.productId, it.quantity, true⟩),
          items.map (fun it => (it.productId, it.quantity)), false, none⟩ := by
  intro items
  induction items with
  | nil => intro i; rfl
  | cons a tl ih =>
    intro i
    simp only [reserveItems, hok i, fireStockCall, if_true, ih (i + 1),
      List.map_cons]

/-- C5 (amended): when cart validation succeeds with an available non-empty
cart, every reservation call succeeds and the payment attempt is declined,
the order ends CANCELLED with paymentStatus FAILED and cancellationReason
"Payment failed", every reserved item is compensated by one increase call in
order, a failure notification is attempted, and a failure response carrying
the order is returned. -/
theorem C5_amended_payment_failure (env : SagaEnv) (orders : List Order)
    (counter : Nat) (cart : Cart) (validation : ValidationData)
    (hA : env.authPresent = true) (hF : env.fieldsPresent = true)
    (hev : env.cartEvent = .ok cart validation)
    (hall : validation.allAvailable = true)
    (hne : cart.items.length ≠ 0)
    (hok : ∀ j, env.stockEvent j = .ok)
    (hpay : env.paymentSucceeds = false) :
    ∃ o, (placeOrder env orders counter).createdOrder = some o ∧
      o.status = .cancelled ∧ o.paymentStatus = .failed ∧
      o.cancellationReason = some "Payment failed" ∧
      (placeOrder env orders counter).incCalls =
        cart.items.map (fun it => (it.productId, it.quantity)) ∧
      (placeOrder env orders counter).notifTypes = ["order_cancelled"] ∧
      (placeOrder env orders counter).success = false ∧
      (placeOrder env orders counter).statusCode = 400 ∧
      (placeOrder env orders counter).respOrder =
        (placeOrder env orders counter).createdOrder := by
  simp only [placeOrder, hA, hF, hev, fireCartValidate, if_true, hall, hne,
    if_false]
  simp only [hne, if_false, placeOrderValidated,
    reserveItems_all_ok env.stockEvent hok cart.items 0, hpay,
    processPayment, Bool.false_eq_true, if_false, rollbackAll_eq,
    List.map_map]
  refine ⟨_, rfl, ?_⟩
  simp

/-- Witness for C5 (amended) on the concrete declined-payment environment. -/
theorem C5_amended_payment_failure_witness :
    ∃ o, (placeOrder envPaymentDeclined [] 1000).createdOrder = some o ∧
      o.status = .cancelled ∧ o.paymentStatus = .failed ∧
      o.cancellationReason = some "Payment failed" ∧
      (placeOrder envPaymentDeclined [] 1000).incCalls =
        sampleCart.items.map (fun it => (it.productId, it.quantity)) ∧
      (placeOrder envPaymentDeclined [] 1000).notifTypes =
        ["order_cancelled"] ∧
      (placeOrder envPaymentDeclined [] 1000).success = false ∧
      (placeOrder envPaymentDeclined [] 1000).statusCode = 400 ∧
      (placeOrder envPaymentDeclined [] 1000).respOrder =
        (placeOrder envPaymentDeclined [] 1000).createdOrder :=
  C5_amended_payment_failure envPaymentDeclined [] 1000 sampleCart
    sampleValidation rfl rfl rfl rfl (by decide) (fun _ => rfl) rfl

/-
Claim C6: OPEN breakers short-circuit; elapsed cooldown yields HALF_OPEN.
-/

/-- C6: while a breaker is OPEN within its cooldown, a call never invokes the
wrapped operation, returns the fallback, and leaves the state OPEN; the
first call after the cooldown elapsed finds the breaker HALF_OPEN before any
operation attempt, and the operation is then attempted as the trial. -/
theorem C6_open_short_circuit (cfg : BreakerConfig) (b : Breaker) (t0 : Nat)
    (now : Nat) (op : OpBehavior) (h : b.state = .isOpen t0) :
    (now < t0 + cfg.resetTimeout →
      (fireBreaker cfg b now op).1.invoked = false ∧
      (fireBreaker cfg b now op).1.outcome = .fallbackValue ∧
      (fireBreaker cfg b now op).2.state = .isOpen t0) ∧
    (t0 + cfg.resetTimeout ≤ now →
      (fireBreaker cfg b now op).1.preAttemptState = .halfOpen ∧
      (fireBreaker cfg b now op).1.invoked = true) := by
  constructor
  · intro hlt
    have hnle : ¬ t0 + cfg.resetTimeout ≤ now := not_le.mpr hlt
    simp only [fireBreaker, effectiveState, h, hnle, if_false]
    exact ⟨trivial, trivial, trivial⟩
  · intro hle
    simp only [fireBreaker, effectiveState, h, hle, if_true]
    by_cases hs : callSucceeds cfg op = true
    · simp only [hs, if_true]; exact ⟨trivial, trivial⟩
    · simp only [Bool.not_eq_true] at hs
      simp only [hs, Bool.false_eq_true, if_false]; exact ⟨trivial, trivial⟩

/-- Witness for C6 on the order service's breaker configuration: a breaker
opened at time 0, probed at times 10 (inside the 30000 ms cooldown) and
30000 (cooldown elapsed). -/
theorem C6_open_short_circuit_witness :
    ((10 < 0 + orderBreakerConfig.resetTimeout →
      (fireBreaker orderBreakerConfig ⟨.isOpen 0, []⟩ 10
        ⟨true, 1⟩).1.invoked = false ∧
      (fireBreaker orderBreakerConfig ⟨.isOpen 0, []⟩ 10
        ⟨true, 1⟩).1.outcome = .fallbackValue ∧
      (fireBreaker orderBreakerConfig ⟨.isOpen 0, []⟩ 10
        ⟨true, 1⟩).2.state = .isOpen 0) ∧
    (0 + orderBreakerConfig.resetTimeout ≤ 10 →
      (fireBreaker orderBreakerConfig ⟨.isOpen 0, []⟩ 10
        ⟨true, 1⟩).1.preAttemptState = .halfOpen ∧
      (fireBreaker orderBreakerConfig ⟨.isOpen 0, []⟩ 10
        ⟨true, 1⟩).1.invoked = true)) ∧
    ((30000 < 0 + orderBreakerConfig.resetTimeout →
      (fireBreaker orderBreakerConfig ⟨.isOpen 0, []⟩ 30000
        ⟨true, 1⟩).1.invoked = false ∧
      (fireBreaker orderBreakerConfig ⟨.isOpen 0, []⟩ 30000
        ⟨true, 1⟩).1.outcome = .fallbackValue ∧
      (fireBreaker orderBreakerConfig ⟨.isOpen 0, []⟩ 30000
        ⟨true, 1⟩).2.state = .isOpen 0) ∧
    (0 + orderBreakerConfig.resetTimeout ≤ 30000 →
      (fireBreaker orderBreakerConfig ⟨.isOpen 0, []⟩ 30000
        ⟨true, 1⟩).1.preAttemptState = .halfOpen ∧
      (fireBreaker orderBreakerConfig ⟨.isOpen 0, []⟩ 30000
        ⟨true, 1⟩).1.invoked = true)) :=
  ⟨C6_open_short_circuit orderBreakerConfig ⟨.isOpen 0, []⟩ 0 10 ⟨true, 1⟩
      rfl,
    C6_open_short_circuit orderBreakerConfig ⟨.isOpen 0, []⟩ 0 30000
      ⟨true, 1⟩ rfl⟩

/-
Claim C9: the direct status override enforces no state machine.
-/

lemma parseOrderStatus_statusString (st : OrderStatus) :
    parseOrderStatus (statusString st) = some st := by
  cases st <;> rfl

lemma updateFirstOrder_append (oid : Nat) (f : Order → Order) (o : Order)
    (hid : o.id = oid) :
    ∀ (pre post : List Order), (∀ x ∈ pre, x.id ≠ oid) →
      updateFirstOrder oid f (pre ++ o :: post) =
        some (f o, pre ++ f o :: post) := by
  intro pre
  induction pre with
  | nil =>
    intro post _
    simp only [List.nil_append, updateFirstOrder, hid, if_true]
  | cons a tl ih =>
    intro post hpre
    have ha : ¬ a.id = oid := hpre a (List.mem_cons_self a tl)
    simp only [List.cons_append, updateFirstOrder, ha, if_false,
      List.append_eq]
    rw [ih post fun x hx => hpre x (List.mem_cons_of_mem a hx)]

/-- C9: for every stored order and every value of the valid status set, the
direct status-update endpoint overwrites the order's status with that value
regardless of its current status (terminal states included), refreshes
updatedAt, appends exactly one timeline entry, and leaves every other order
and every other field unchanged; no transition-legality check exists. -/
theorem C9_status_override_unchecked (pre post : List Order) (o : Order)
    (oid : Nat) (st : OrderStatus) (msg : Option String) (now : Nat)
    (hpre : ∀ x ∈ pre, x.id ≠ oid) (hid : o.id = oid) :
    updateOrderStatusEndpoint (pre ++ o :: post) oid
        (some (statusString st)) msg now =
      (⟨200, true, "Order status updated successfully",
          some (applyStatusUpdate st msg now o)⟩,
        pre ++ applyStatusUpdate st msg now o :: post) ∧
    (applyStatusUpdate st msg now o).status = st ∧
    (applyStatusUpdate st msg now o).updatedAt = now ∧
    (applyStatusUpdate st msg now o).timeline =
      o.timeline ++
        [⟨st, msg.getD ("Order status updated to " ++ statusString st),
          now⟩] ∧
    (applyStatusUpdate st msg now o).items = o.items ∧
    (applyStatusUpdate st msg now o).paymentStatus = o.paymentStatus := by
  refine ⟨?_, rfl, rfl, rfl, rfl, rfl⟩
  have hparse : (some (statusString st)).bind parseOrderStatus = some st := by
    simp [parseOrderStatus_statusString]
  unfold updateOrderStatusEndpoint
  rw [hparse]
  dsimp only
  rw [updateFirstOrder_append oid (applyStatusUpdate st msg now) o hid pre
    post hpre]

/-- A CONFIRMED (terminal) order, used to witness C9. -/
def c9Order : Order :=
  ⟨1001, "u1", [⟨1, "iPhone 15 Pro", 999.99, 2, "Electronics", 1999.98⟩],
    1999.98, 2, .confirmed, .completed, "1 Main St", "card", none, none, 1,
    1, [⟨.confirmed, "Payment successful, order confirmed", 1⟩]⟩

/-- Witness for C9: dragging a CONFIRMED order back to pending succeeds. -/
theorem C9_status_override_unchecked_witness :
    updateOrderStatusEndpoint ([] ++ c9Order :: []) 1001
        (some (statusString .pending)) none 9 =
      (⟨200, true, "Order status updated successfully",
          some (applyStatusUpdate .pending none 9 c9Order)⟩,
        [] ++ applyStatusUpdate .pending none 9 c9Order :: []) ∧
    (applyStatusUpdate .pending none 9 c9Order).status = .pending ∧
    (applyStatusUpdate .pending none 9 c9Order).updatedAt = 9 ∧
    (applyStatusUpdate .pending none 9 c9Order).timeline =
      c9Order.timeline ++
        [⟨.pending,
          Option.getD none ("Order status updated to " ++
            statusString .pending), 9⟩] ∧
    (applyStatusUpdate .pending none 9 c9Order).items = c9Order.items ∧
    (applyStatusUpdate .pending none 9 c9Order).paymentStatus =
      c9Order.paymentStatus :=
  C9_status_override_unchecked [] [] c9Order 1001 .pending none 9
    (by intro x hx; cases hx) rfl

/-
Claim C8: the statistics route is shadowed by the parametric user route.
-/

/-- A ledger with one CONFIRMED order of user u1, revenue 100. -/
def c8Order : Order :=
  ⟨1001, "u1", [⟨1, "iPhone 15 Pro", 100, 1, "Electronics", 100⟩], 100, 1,
    .confirmed, .completed, "1 Main St", "card", none, none, 1, 1,
    [⟨.confirmed, "Payment successful, order confirmed", 1⟩]⟩

/-- C8 evaluation: GET /api/orders/stats is captured by the earlier-registered
GET /api/orders/:userId route with userId bound to the literal "stats", so the
service answers with the (empty) order list of the user named "stats" instead
of the aggregate statistics the stats handler would compute. -/
theorem C8_stats_route_shadowed :
    dispatchGet ["api", "orders", "stats"] = some OrderRoute.getUserOrders ∧
    orderServiceGet [c8Order] ["api", "orders", "stats"] =
      OrderGetResponse.userOrdersResp [] 1 0 0 false false ∧
    getOrderStatsHandler [c8Order] none =
      OrderGetResponse.statsResp 1
        [("pending", 0), ("processing", 0), ("confirmed", 1),
          ("cancelled", 0), ("shipped", 0), ("delivered", 0)] 100 100 :=
  ⟨rfl, rfl, by
    simp [getOrderStatsHandler, c8Order, allOrderStatuses, statusString]⟩

/-
Claim C7: totals always equal the sums over current items.
-/

lemma orderItems_amount_of_map (items : List CartItem) :
    orderItemsTotalAmount (items.map mkOrderItem) =
      cartItemsTotalAmount items := by
  simp [orderItemsTotalAmount, cartItemsTotalAmount, List.foldl_map,
    mkOrderItem]

lemma orderItems_qty_of_map (items : List CartItem) :
    orderItemsTotalQty (items.map mkOrderItem) = cartItemsTotalQty items := by
  simp [orderItemsTotalQty, cartItemsTotalQty, List.foldl_map, mkOrderItem]

lemma placeOrderValidated_created_totals (env : SagaEnv) (cart : Cart)
    (orders : List Order) (counter : Nat) (o : Order)
    (h : (placeOrderValidated env cart orders counter).createdOrder = some o) :
    o.items = cart.items.map mkOrderItem ∧
      o.totalAmount = cart.totalAmount ∧ o.totalItems = cart.totalItems := by
  by_cases hro : (reserveItems env.stockEvent cart.items 0).failed = true
  · simp only [placeOrderValidated, hro, if_true] at h
    injection h with h
    subst h
    exact ⟨rfl, rfl, rfl⟩
  · by_cases hp : env.paymentSucceeds = true
    · simp only [placeOrderValidated, hro, Bool.false_eq_true,
        processPayment, hp, if_true, if_false] at h
      injection h with h
      subst h
      exact ⟨rfl, rfl, rfl⟩
    · simp only [placeOrderValidated, hro, Bool.false_eq_true,
        processPayment, hp, if_true, if_false] at h
      injection h with h
      subst h
      exact ⟨rfl, rfl, rfl⟩

lemma placeOrderValidated_mem (env : SagaEnv) (cart : Cart)
    (orders : List Order) (counter : Nat) (o : Order)
    (h : o ∈ (placeOrderValidated env cart orders counter).orders) :
    o ∈ orders ∨
      (placeOrderValidated env cart orders counter).createdOrder = some o := by
  by_cases hro : (reserveItems env.stockEvent cart.items 0).failed = true
  · simp only [placeOrderValidated, hro, if_true, List.mem_append,
      List.mem_singleton] at h ⊢
    rcases h with h | h
    · exact Or.inl h
    · exact Or.inr (by rw [h])
  · by_cases hp : env.paymentSucceeds = true
    · simp only [placeOrderValidated, hro, Bool.false_eq_true,
        processPayment, hp, if_true, if_false, List.mem_append,
        List.mem_singleton] at h ⊢
      rcases h with h | h
      · exact Or.inl h
      · exact Or.inr (by rw [h])
    · simp only [placeOrderValidated, hro, Bool.false_eq_true,
        processPayment, hp, if_true, if_false, List.mem_append,
        List.mem_singleton] at h ⊢
      rcases h with h | h
      · exact Or.inl h
      · exact Or.inr (by rw [h])

lemma validateCartEndpoint_cart_totals (storedCart : Cart)
    (avail : AvailCheckOutcome) (now : Nat) (c : Cart)
    (h : (validateCartEndpoint storedCart avail now).cart = some c) :
    c.totalAmount = cartItemsTotalAmount c.items ∧
      c.totalItems = cartItemsTotalQty c.items := by
  by_cases hlen : storedCart.items.length = 0
  · simp [validateCartEndpoint, hlen] at h
  · unfold validateCartEndpoint at h
    rw [if_neg hlen] at h
    cases avail with
    | failed fb msg => simp at h
    | ok allAvailable checkedItems =>
      simp only at h
      injection h with h
      subst h
      exact ⟨rfl, rfl⟩

lemma cartEventOfValidate_ok (resp : CartValidateResp)
    (transport : CartTransport) (c : Cart) (v : ValidationData)
    (h : cartEventOfValidate resp transport = .ok c v) :
    resp.cart = some c := by
  cases transport with
  | delivered =>
    rw [cartEventOfValidate] at h
    by_cases hsc : resp.statusCode = 200
    · rw [if_pos hsc] at h
      cases hc : resp.cart with
      | none => rw [hc] at h; cases hv : resp.validation <;>
          rw [hv] at h <;> cases h
      | some c1 =>
        rw [hc] at h
        cases hv : resp.validation with
        | none => rw [hv] at h; cases h
        | some v1 =>
          rw [hv] at h
          injection h with h1 h2
          rw [h1]
    · rw [if_neg hsc] at h; cases h
  | shortCircuit => cases h
  | transportFail => cases h
  | throwsErr => cases h

lemma updateFirstOrder_mem (oid : Nat) (f : Order → Order) :
    ∀ (l : List Order) (o1 : Order) (l1 : List Order),
      updateFirstOrder oid f l = some (o1, l1) →
      ∀ x ∈ l1, x ∈ l ∨ ∃ y ∈ l, x = f y := by
  intro l
  induction l with
  | nil => intro o1 l1 h; cases h
  | cons a tl ih =>
    intro o1 l1 h x hx
    by_cases ha : a.id = oid
    · rw [updateFirstOrder, if_pos ha] at h
      injection h with h
      injection h with h1 h2
      subst h2
      cases hx with
      | head => exact Or.inr ⟨a, List.mem_cons_self a tl, rfl⟩
      | tail _ hx => exact Or.inl (List.mem_cons_of_mem a hx)
    · rw [updateFirstOrder, if_neg ha] at h
      cases hm : updateFirstOrder oid f tl with
      | none => rw [hm] at h; cases h
      | some p =>
        rw [hm] at h
        injection h with h
        injection h with h1 h2
        subst h2
        cases hx with
        | head => exact Or.inl (List.mem_cons_self a tl)
        | tail _ hx =>
          rcases ih p.1 p.2 (by rw [hm]) x hx with hin | ⟨y, hy, hxy⟩
          · exact Or.inl (List.mem_cons_of_mem a hin)
          · exact Or.inr ⟨y, List.mem_cons_of_mem a hy, hxy⟩

lemma applyStatusUpdate_totals (st : OrderStatus) (msg : Option String)
    (now : Nat) (o : Order) (h : orderTotalsOk o) :
    orderTotalsOk (applyStatusUpdate st msg now o) := h

lemma stepOrderService_preserves (st : OrderServiceState)
    (op : OrderServiceOp) (h : ∀ o ∈ st.orders, orderTotalsOk o) :
    ∀ o ∈ (stepOrderService st op).orders, orderTotalsOk o := by
  intro o ho
  cases op with
  | updStatus oid sRaw msg now =>
    simp only [stepOrderService] at ho
    rw [updateOrderStatusEndpoint] at ho
    cases hp : sRaw.bind parseOrderStatus with
    | none => rw [hp] at ho; exact h o ho
    | some st1 =>
      rw [hp] at ho
      dsimp only at ho
      cases hm : updateFirstOrder oid (applyStatusUpdate st1 msg now)
          st.orders with
      | none => rw [hm] at ho; exact h o ho
      | some p =>
        obtain ⟨o1, l1⟩ := p
        rw [hm] at ho
        dsimp only at ho
        rcases updateFirstOrder_mem oid (applyStatusUpdate st1 msg now)
            st.orders o1 l1 hm o ho with hin | ⟨y, hy, hxy⟩
        · exact h o hin
        · rw [hxy]
          exact applyStatusUpdate_totals st1 msg now y (h y hy)
  | place auth fields uid addr pm storedCart avail transport stockEv
      restoreEv pay now =>
    simp only [stepOrderService] at ho
    rcases placeOrder_result
        ⟨auth, fields, uid, addr, pm,
          cartEventOfValidate (validateCartEndpoint storedCart avail now)
            transport, stockEv, restoreEv, pay, now⟩ st.orders st.counter with
      ⟨-, horders, -, -, -⟩ | ⟨cart, validation, hev, -, -, heq⟩
    · rw [horders] at ho
      exact h o ho
    · rw [heq] at ho
      rcases placeOrderValidated_mem _ cart st.orders st.counter o ho with
        hin | hcreated
      · exact h o hin
      · obtain ⟨hitems, hamount, hqty⟩ :=
          placeOrderValidated_created_totals _ cart st.orders st.counter o
            hcreated
        obtain ⟨hca, hcq⟩ := validateCartEndpoint_cart_totals storedCart
          avail now cart
          (cartEventOfValidate_ok _ transport cart validation hev)
        constructor
        · rw [hamount, hitems, orderItems_amount_of_map, hca]
        · rw [hqty, hitems, orderItems_qty_of_map, hcq]

lemma runOrderService_aux :
    ∀ (ops : List OrderServiceOp) (st : OrderServiceState),
      (∀ o ∈ st.orders, orderTotalsOk o) →
      ∀ o ∈ (List.foldl stepOrderService st ops).orders, orderTotalsOk o := by
  intro ops
  induction ops with
  | nil => intro st h; simpa using h
  | cons op rest ih =>
    intro st h
    simp only [List.foldl_cons]
    exact ih (stepOrderService st op) (stepOrderService_preserves st op h)

/-- C7: after any sequence of order-service operations (order placements and
direct status updates), every order record in the ledger has totalAmount
equal to the sum of price times quantity over its items and totalItems equal
to the sum of its items' quantities. -/
theorem C7_totals_invariant (ops : List OrderServiceOp) (o : Order)
    (h : o ∈ (runOrderService ops).orders) : orderTotalsOk o :=
  runOrderService_aux ops initOrderServiceState
    (by intro x hx; simp [initOrderServiceState] at hx) o h

/-- Operation list for the C7 witness: one fully successful placement. -/
def c7Ops : List OrderServiceOp :=
  [.place true true "user1" "1 Main St" "card" sampleCart
    (.ok true sampleValidation.items) .delivered (fun _ => .ok)
    (fun _ => .ok) true 5]

/-- The single order the C7 witness run produces. -/
def c7Order : Order := ((runOrderService c7Ops).orders).getD 0 defaultOrder

/-- Witness for C7 on a concrete one-placement run. -/
theorem C7_totals_invariant_witness : orderTotalsOk c7Order :=
  C7_totals_invariant c7Ops c7Order (List.Mem.head _)

/-- Witness for C10 on the sample database: operation "reserve" on product 1
with quantity 3. -/
theorem C10_unknown_op_noop_witness :
    (updateStockEndpoint sampleProductsDb 1 3 "reserve" 7).1.statusCode = 200 ∧
    (updateStockEndpoint sampleProductsDb 1 3 "reserve" 7).1.success = true ∧
    (updateStockEndpoint sampleProductsDb 1 3 "reserve" 7).1.newStock =
      some (⟨1, "iPhone 15 Pro", 999.99, 50, true, 0⟩ : Product).stock ∧
    (updateStockEndpoint sampleProductsDb 1 3 "reserve" 7).1.newAvailable =
      some (decide
        (0 < (⟨1, "iPhone 15 Pro", 999.99, 50, true, 0⟩ : Product).stock)) ∧
    (updateStockEndpoint sampleProductsDb 1 3 "reserve" 7).2.map Product.stock =
      sampleProductsDb.map Product.stock ∧
    (updateStockEndpoint sampleProductsDb 1 3 "reserve" 7).2.map Product.id =
      sampleProductsDb.map Product.id ∧
    (updateStockEndpoint sampleProductsDb 1 3 "reserve" 7).2.find?
        (fun x => x.id == 1) =
      some (refreshProduct ⟨1, "iPhone 15 Pro", 999.99, 50, true, 0⟩ 7) :=
  C10_unknown_op_noop sampleProductsDb 1 3 "reserve" 7
    ⟨1, "iPhone 15 Pro", 999.99, 50, true, 0⟩
    (by decide) (by decide) (by decide) rfl

end ECom
